import Mathlib

/-!
# Verification of the audit-PDF generator (`api/generate-audit-pdf.py`)

This file gives a shallow embedding of the audit-PDF generator and of its
HTTP request handler, and proves the behavioural claims about them.

* Layout arithmetic is carried out in `ℚ` (the Python source computes with
  floats whose values here are exact small rationals up to negligible
  rounding; every inequality settled below is far from any rounding margin).
* The word-wrap routine `simpleSplit` comes from the external `reportlab`
  library, which is not part of the repository.  It is modelled from the
  spec: a greedy word-wrap that packs words left to right and breaks when
  the next word would make the line exceed the width budget, measured in
  Courier metrics (every Courier / Courier-Bold glyph is 600/1000 em wide,
  so a string of `n` characters at size `s` is `3/5 * s * n` points wide).
* The HTTP handler (`do_POST`) is embedded as a pure function from the
  parsed JSON object to a response description; Python exceptions and the
  `try/finally` cleanup are embedded as explicit control flow.
-/

/-! ## Word wrap (modelled from the spec)

`reportlab.lib.utils.simpleSplit(text, fontName, fontSize, maxWidth)` first
splits the text on newline characters, then greedily packs the
whitespace-separated words of each line. -/

/-- Whitespace characters recognised by the word splitter
(the whitespace set of Python `str.split`). -/
def isWS (c : Char) : Bool :=
  c == ' ' || c == '\t' || c == '\n' || c == '\r' || c == '\x0b' || c == '\x0c'

/-- Splits a character list into maximal whitespace-free words,
dropping all whitespace; the accumulator holds the current word reversed. -/
def tokensAux : List Char → List Char → List (List Char)
  | [], acc => if acc = [] then [] else [acc.reverse]
  | c :: cs, acc =>
    if isWS c then
      if acc = [] then tokensAux cs [] else acc.reverse :: tokensAux cs []
    else tokensAux cs (c :: acc)

/-- The whitespace-separated words of a character list (Python `str.split()`). -/
def tokens (cs : List Char) : List (List Char) := tokensAux cs []

/-- Splits a character list on newline characters, keeping empty segments
(Python `str.split(chr(10))`); the accumulator holds the current segment
reversed. -/
def splitNLAux : List Char → List Char → List (List Char)
  | [], acc => [acc.reverse]
  | c :: cs, acc =>
    if c = '\n' then acc.reverse :: splitNLAux cs [] else splitNLAux cs (c :: acc)

/-- All segments of a character list between newline characters. -/
def splitNL (cs : List Char) : List (List Char) := splitNLAux cs []

/-- Width in points of a character list in a Courier-family font at the given
size: every glyph of Courier and of Courier-Bold is 600/1000 em wide. -/
def strW (size : ℚ) (cs : List Char) : ℚ := 3 / 5 * size * cs.length

/-- Width in points of a string in a Courier-family font at the given size
(`reportlab` `stringWidth` for the Courier family). -/
def strWidth (size : ℚ) (s : String) : ℚ := strW size s.data

/-- Greedy packing of the remaining words, with `cur` the line built so far:
a word is appended (separated by a single space) when the extended line still
fits in `mW` points, and otherwise starts a new line. -/
def wrapAux (size mW : ℚ) : List (List Char) → List Char → List (List Char)
  | [], cur => [cur]
  | w :: ws, cur =>
    if strW size (cur ++ ' ' :: w) ≤ mW then wrapAux size mW ws (cur ++ ' ' :: w)
    else cur :: wrapAux size mW ws w

/-- Greedy word wrap of a word list: the first word always opens the first
line, and a word wider than the budget stands alone on its line. -/
def wrapWords (size mW : ℚ) : List (List Char) → List (List Char)
  | [] => []
  | w :: ws => wrapAux size mW ws w

/-- Greedy word wrap of one newline-free line of text. -/
def wrapLine (size mW : ℚ) (cs : List Char) : List (List Char) :=
  wrapWords size mW (tokens cs)

/-- Modelled from the spec: `reportlab.lib.utils.simpleSplit` (the library is
external to the repository) — greedy word-wrap in Courier metrics, applied to
each newline-separated line of the text, producing one string per visual
line. -/
def simpleSplit (text : String) (size mW : ℚ) : List String :=
  ((splitNL text.data).flatMap (wrapLine size mW)).map (fun cs => String.mk cs)

/-! ## Layout constants (`generate-audit-pdf.py`, module level) -/

/-- Page width of US Letter in points (`W, H = letter`). -/
def W : ℚ := 612

/-- Page height of US Letter in points. -/
def H : ℚ := 792

/-- Left margin `ML = 70`. -/
def ML : ℚ := 70

/-- Right margin `MR = W - 70`. -/
def MR : ℚ := W - 70

/-- Content width `CW = MR - ML`. -/
def CW : ℚ := MR - ML

/-- `LOGO_ASPECT = 551.0 / 1026.0`. -/
def LOGO_ASPECT : ℚ := 551 / 1026

/-- Brand colors, as hex strings. -/
def GREEN : String := "#00ff88"

def CYAN : String := "#00d4ff"

def ORANGE : String := "#ff9f43"

def YELLOW : String := "#ffd93d"

def RED : String := "#ff4d6a"

def PINK : String := "#ff69b4"

def PURPLE : String := "#b44dff"

def WHITE : String := "#ffffff"

def GRAY_LIGHT : String := "#cccccc"

def GRAY : String := "#999999"

def GRAY_DIM : String := "#555555"

def GREEN_DARK : String := "#0a1f14"

def CARD : String := "#111111"

def BLACK : String := "#000000"

/-! ## Canvas drawing operations

One constructor per `reportlab` canvas call issued by the source; a page is
the ordered list of the operations drawn on it. -/

/-- A single drawing call on the canvas. -/
inductive Op where
  | setFill (color : String)
  | setStroke (color : String)
  | setFont (font : String) (size : ℚ)
  | setLineWidth (w : ℚ)
  | setDash (dashOn dashOff : ℚ)
  | clearDash
  | rect (x y w h : ℚ) (fill stroke : Bool)
  | roundRect (x y w h r : ℚ) (fill stroke : Bool)
  | line (x1 y1 x2 y2 : ℚ)
  | textL (x y : ℚ) (s : String)
  | textC (x y : ℚ) (s : String)
  | textR (x y : ℚ) (s : String)
deriving DecidableEq

/-- `bg(c)`: fill the whole page black. -/
def bgOps : List Op :=
  [.setFill BLACK, .rect 0 0 W H true false]

/-- Height of the logo drawn at width `w` (`draw_logo` return value). -/
def logoH (w : ℚ) : ℚ := w * LOGO_ASPECT

/-- `draw_logo(c, x, y, w)`: text fallback label, drawn at half logo height. -/
def drawLogoOps (x y w : ℚ) : List Op :=
  [.setFont "Courier-Bold" 14, .setFill GREEN, .textL x (y + logoH w / 2) "blok blok studio"]

/-- Zero-padded two-digit page number (Python format `02d`). -/
def pad2 (n : ℕ) : String := if n < 10 then "0" ++ toString n else toString n

/-- Vertical position of the header rule (`line_y` inside `header`). -/
def headerLineY : ℚ := H - 28 - logoH 80 - 8

/-- Cursor position returned by `header`: 30 points below the rule. -/
def headerY : ℚ := headerLineY - 30

/-- `header(c, pg, total)`: accent bar, logo, page indicator, rule. -/
def headerOps (pg total : ℕ) : List Op :=
  [.setFill GREEN, .rect 0 (H - 5) W 5 true false]
  ++ drawLogoOps ML (H - 28 - logoH 80) 80
  ++ [.setFont "Courier" 10, .setFill GRAY,
      .textR MR (H - 48) (pad2 pg ++ " / " ++ pad2 total),
      .setStroke GREEN, .setLineWidth 1, .line ML headerLineY MR headerLineY]

/-- `footer(c)`: rule plus centered contact line near the bottom. -/
def footerOps : List Op :=
  [.setStroke GREEN, .setLineWidth (1 / 2), .line ML 42 MR 42,
   .setFont "Courier" 8, .setFill GRAY,
   .textC (W / 2) 26 "blokblokstudio.com | @haynes2va | @blokblokstudio"]

/-- `badge(c, x, y, text, color)`: filled rounded label sized to the text. -/
def badgeOps (x y : ℚ) (text : String) (color : String) : List Op :=
  [.setFont "Courier-Bold" 8, .setFill color,
   .roundRect x (y - 18) (strWidth 8 text + 14) 18 3 true false,
   .setFill BLACK, .textL (x + 7) (y - 13) text]

/-- `dashed_card(c, x, y, w, h, border_color)`: filled card with dashed border. -/
def dashedCardOps (x y w h : ℚ) (borderColor : String) : List Op :=
  [.setFill CARD, .setStroke borderColor, .setLineWidth (6 / 5), .setDash 4 3,
   .roundRect x y w h 4 true true, .clearDash]

/-- `color_bar(c, x, y, color)`: short accent bar, default 30 by 3 points. -/
def colorBarOps (x y : ℚ) (color : String) : List Op :=
  [.setFill color, .rect x y 30 3 true false]

/-! ## Card data and the truncating card loop (pages 2 to 5) -/

/-- A statistic card of page 2 (`stats` list in the source). -/
structure Stat where
  val : String
  desc : String
  source : String
  color : String
deriving DecidableEq

/-- Height of a page-2 statistic card for a given description text:
`card_h = 38 + len(desc_lines) * 12 + 14` with the description wrapped at
font size 9 into `CW - 30` points. -/
def statCardHeight (desc : String) : ℚ :=
  38 + ((simpleSplit desc 9 (CW - 30)).length : ℚ) * 12 + 14

/-- First statistic card of page 2. -/
def stat1 : Stat :=
  ⟨"67%", "of businesses using AI saw 20%+ revenue growth within 12 months",
   "McKinsey, 2025", CYAN⟩

/-- Second statistic card of page 2. -/
def stat2 : Stat :=
  ⟨"78%", "of leads go cold because businesses take 5+ hours to respond",
   "InsideSales Research", ORANGE⟩

/-- Third statistic card of page 2. -/
def stat3 : Stat :=
  ⟨"10-15 hrs", "per week saved on average when manual workflows are automated",
   "HubSpot State of AI", YELLOW⟩

/-- The fixed statistic cards of page 2. -/
def stats : List Stat := [stat1, stat2, stat3]

/-- Height of a statistic card. -/
def statH (s : Stat) : ℚ := statCardHeight s.desc

/-- An opportunity card of page 3. -/
structure Opp where
  title : String
  desc : String
  color : String
deriving DecidableEq

/-- First opportunity card of page 3; its description mentions the
submitted business field. -/
def opp1 (field : String) : Opp :=
  ⟨"Instant Lead Response",
   "When someone contacts your " ++ field ++ " business, AI responds in under 60 seconds — qualifying, answering questions, and booking calls on your calendar. No more lost leads from slow follow-up.",
   GREEN⟩

/-- Second opportunity card of page 3. -/
def opp2 : Opp :=
  ⟨"Automated Follow-Up Sequences",
   "Personalized email sequences that nurture leads on autopilot. Each message adapts based on what the lead cares about. Runs 24/7 without you touching it.",
   CYAN⟩

/-- Third opportunity card of page 3. -/
def opp3 : Opp :=
  ⟨"AI-Powered Content System",
   "Turn one idea into 10 pieces of content across platforms. Blog posts, social media, email newsletters — all generated, scheduled, and posted automatically.",
   ORANGE⟩

/-- Fourth opportunity card of page 3. -/
def opp4 : Opp :=
  ⟨"Smart Client Dashboard",
   "Give your clients a real-time dashboard showing results, progress, and ROI. Builds trust, reduces check-in calls, and makes you look incredibly professional.",
   PURPLE⟩

/-- The opportunity cards of page 3. -/
def opportunities (field : String) : List Opp := [opp1 field, opp2, opp3, opp4]

/-- Height of an opportunity card: `34 + len(desc_lines) * 11 + 10`,
description wrapped at font size 8 into `CW - 30` points. -/
def oppH (o : Opp) : ℚ :=
  34 + ((simpleSplit o.desc 8 (CW - 30)).length : ℚ) * 11 + 10

/-- A roadmap phase card of page 4. -/
structure Phase where
  tag : String
  title : String
  desc : String
  color : String
deriving DecidableEq

/-- First roadmap phase card of page 4. -/
def phase1 : Phase :=
  ⟨"WEEK 1-2", "Foundation",
   "Audit your current tools, set up core integrations, build your AI response system. You\x27ll see results from day one.", GREEN⟩

/-- Second roadmap phase card of page 4. -/
def phase2 : Phase :=
  ⟨"WEEK 3-4", "Automation",
   "Connect your workflows — lead capture, follow-up sequences, content pipeline. Everything runs without manual input.", CYAN⟩

/-- Third roadmap phase card of page 4. -/
def phase3 : Phase :=
  ⟨"WEEK 5-6", "Optimization",
   "Analyze what\x27s working, refine messaging, add advanced features. Scale what converts, cut what doesn\x27t.", ORANGE⟩

/-- Fourth roadmap phase card of page 4. -/
def phase4 : Phase :=
  ⟨"ONGOING", "Growth",
   "Monthly optimization, new automations as needs evolve, priority support. Your systems get smarter over time.", YELLOW⟩

/-- The roadmap phase cards of page 4. -/
def phases : List Phase := [phase1, phase2, phase3, phase4]

/-- Height of a phase card: `18 + 22 + 14 + len(desc_lines) * 11 + 18`. -/
def phaseH (p : Phase) : ℚ :=
  18 + 22 + 14 + ((simpleSplit p.desc 8 (CW - 30)).length : ℚ) * 11 + 18

/-- A differentiator card of page 5. -/
structure Reason where
  title : String
  desc : String
  color : String
deriving DecidableEq

/-- First differentiator card of page 5. -/
def reason1 : Reason :=
  ⟨"We Build Systems, Not Websites",
   "Most agencies hand you a website and disappear. We build the AI agents, automations, and workflows that actually grow your business.", GREEN⟩

/-- Second differentiator card of page 5. -/
def reason2 : Reason :=
  ⟨"AI-First Approach",
   "Every solution leverages AI from the ground up. Not bolted on — built into the core of how your business operates.", CYAN⟩

/-- Third differentiator card of page 5. -/
def reason3 : Reason :=
  ⟨"Results in Weeks, Not Months",
   "Our phased approach means measurable results within the first 2 weeks. No 6-month timelines with nothing to show.", ORANGE⟩

/-- Fourth differentiator card of page 5. -/
def reason4 : Reason :=
  ⟨"Everything Under One Roof",
   "AI agents, workflow automation, websites, ads, content systems, dashboards — all from one team that understands how it connects.", PINK⟩

/-- Fifth differentiator card of page 5. -/
def reason5 : Reason :=
  ⟨"You Own Everything",
   "No vendor lock-in. Everything we build, you own. If you ever want to bring it in-house, you can.", YELLOW⟩

/-- The differentiator cards of page 5. -/
def reasons : List Reason := [reason1, reason2, reason3, reason4, reason5]

/-- Height of a differentiator card: `30 + len(desc_lines) * 11 + 10`. -/
def reasonH (r : Reason) : ℚ :=
  30 + ((simpleSplit r.desc 8 (CW - 30)).length : ℚ) * 11 + 10

/-- The card-emission loop shared by pages 2 to 5: before drawing each card
the source checks `if y - card_h < 60: break`; a drawn card is recorded with
the cursor position it was drawn at, and the cursor then moves down by the
card height plus the inter-card gap. -/
def cardLoop {α : Type} (hOf : α → ℚ) (gap : ℚ) : List α → ℚ → List (α × ℚ)
  | [], _ => []
  | a :: as, y =>
    if y - hOf a < 60 then []
    else (a, y) :: cardLoop hOf gap as (y - hOf a - gap)

/-- The successive values taken by the cursor inside a card loop, one per
drawn card (the value after `y -= card_h + gap`). -/
def loopYs {α : Type} (hOf : α → ℚ) (gap : ℚ) (drawn : List (α × ℚ)) : List ℚ :=
  drawn.map (fun p => p.2 - hOf p.1 - gap)

/-! ## The six page builders -/

/-- The trace of drawing a single page: the drawing calls in order, and the
successive values taken by the vertical cursor variable `y` of the page. -/
structure PageRun where
  ops : List Op
  ys : List ℚ

/-- Page 1 (cover). -/
def page1 (name field : String) : PageRun :=
  let btw := strWidth 10 "CLIENT STRATEGY | BLOK BLOK STUDIO"
  let bx := (W - btw - 20) / 2
  let y0 := H - 70
  let y1 := y0 - 40
  let y2 := y1 - (logoH 140 + 50)
  let y3 := y2 - 45
  let y4 := y3 - 35
  let y5 := y4 - 35
  let y6 := y5 - 30
  let y7 := y6 - 16
  { ops :=
      bgOps
      ++ [.setFill GREEN, .rect 0 (H - 5) W 5 true false,
          .setFont "Courier-Bold" 10,
          .setFill GREEN_DARK, .setStroke GREEN, .setLineWidth 1,
          .roundRect bx y0 (btw + 20) 28 4 true true,
          .setFill GREEN, .textC (W / 2) (y0 + 9) "CLIENT STRATEGY | BLOK BLOK STUDIO"]
      ++ drawLogoOps ((W - 140) / 2) (y1 - logoH 140) 140
      ++ [.setFont "Courier-Bold" 16, .setFill WHITE, .textC (W / 2) y2 "FREE BUSINESS AUDIT",
          .setFont "Courier-Bold" 28, .setFill GREEN, .textC (W / 2) y3 name.toUpper,
          .setFont "Courier-Bold" 14, .setFill WHITE, .textC (W / 2) y4 field,
          .setStroke GREEN, .setLineWidth 2, .line (W / 2 - 60) y5 (W / 2 + 60) y5,
          .setFont "Courier" 10, .setFill GRAY,
          .textC (W / 2) y6 "Custom strategy & automation roadmap",
          .textC (W / 2) y7 ("Prepared for " ++ name ++ " | " ++ field)]
      ++ drawLogoOps ((W - 110) / 2) 80 110
      ++ footerOps,
    ys := [y0, y1, y2, y3, y4, y5, y6, y7] }

/-- The wrapped lines of the quoted problem statement on page 2
(`simpleSplit` of the problem in double quotes, font size 10, width CW - 30). -/
def problemLines (problem : String) : List String :=
  simpleSplit ("\"" ++ problem ++ "\"") 10 (CW - 30)

/-- Height of the problem card on page 2: `40 + len(problem_lines) * 14`. -/
def problemCardH (problem : String) : ℚ :=
  40 + ((problemLines problem).length : ℚ) * 14

/-- Cursor position on pages 2 to 5 after the badge, heading and subheading
(`header` result minus 46, 22 and 28). -/
def bodyStartY : ℚ := headerY - 46 - 22 - 28

/-- Cursor position on page 2 when the statistics loop starts: below the
problem card plus a 14-point gap. -/
def page2StatsStart (problem : String) : ℚ :=
  bodyStartY - (problemCardH problem + 14)

/-- The statistic cards drawn on page 2 when the loop starts at cursor `y`. -/
def statsDrawn (y : ℚ) : List (Stat × ℚ) := cardLoop statH 12 stats y

/-- The opportunity cards drawn on page 3 from cursor `y`. -/
def oppsDrawn (field : String) (y : ℚ) : List (Opp × ℚ) :=
  cardLoop oppH 10 (opportunities field) y

/-- The phase cards drawn on page 4 from cursor `y`. -/
def phasesDrawn (y : ℚ) : List (Phase × ℚ) := cardLoop phaseH 10 phases y

/-- The differentiator cards drawn on page 5 from cursor `y`. -/
def reasonsDrawn (y : ℚ) : List (Reason × ℚ) := cardLoop reasonH 10 reasons y

/-- The drawing calls of one statistic card drawn at cursor `y`. -/
def statCardOps (s : Stat) (y : ℚ) : List Op :=
  let lines := simpleSplit s.desc 9 (CW - 30)
  let h := statH s
  dashedCardOps ML (y - h) CW h s.color
  ++ colorBarOps (ML + 10) (y - 10) s.color
  ++ [.setFont "Courier-Bold" 16, .setFill WHITE, .textL (ML + 14) (y - 28) s.val,
      .setFont "Courier" 9, .setFill GRAY_LIGHT]
  ++ lines.enum.map (fun p => Op.textL (ML + 14) (y - 44 - (p.1 : ℚ) * 12) p.2)
  ++ [.setFont "Courier" 7, .setFill GRAY_DIM,
      .textR (MR - 14) (y - h + 8) ("Source: " ++ s.source)]

/-- Page 2 (the problem). -/
def page2 (field problem : String) : PageRun :=
  let y0 := headerY
  let y1 := y0 - 46
  let y2 := y1 - 22
  let y3 := y2 - 28
  let pLines := problemLines problem
  let cardH := problemCardH problem
  let y4 := y3 - (cardH + 14)
  let drawn := statsDrawn y4
  { ops :=
      bgOps ++ headerOps 2 6 ++ footerOps
      ++ badgeOps ML y0 "THE CHALLENGE" RED
      ++ [.setFont "Courier-Bold" 24, .setFill WHITE, .textL ML y1 "Where You Are Now",
          .setFont "Courier" 10, .setFill GRAY,
          .textL ML y2 ("Based on your audit submission for " ++ field)]
      ++ dashedCardOps ML (y3 - cardH) CW cardH RED
      ++ colorBarOps (ML + 10) (y3 - 10) RED
      ++ [.setFont "Courier-Bold" 9, .setFill RED,
          .textL (ML + 14) (y3 - 24) "YOUR BIGGEST CHALLENGE",
          .setFont "Courier" 10, .setFill GRAY_LIGHT]
      ++ pLines.enum.map (fun p => Op.textL (ML + 14) (y3 - 42 - (p.1 : ℚ) * 14) p.2)
      ++ drawn.flatMap (fun p => statCardOps p.1 p.2),
    ys := [y0, y1, y2, y3, y4] ++ loopYs statH 12 drawn }

/-- The drawing calls of one opportunity card drawn at cursor `y`. -/
def oppCardOps (o : Opp) (y : ℚ) : List Op :=
  let lines := simpleSplit o.desc 8 (CW - 30)
  let h := oppH o
  dashedCardOps ML (y - h) CW h o.color
  ++ colorBarOps (ML + 10) (y - 10) o.color
  ++ [.setFont "Courier-Bold" 10, .setFill WHITE, .textL (ML + 14) (y - 26) o.title,
      .setFont "Courier" 8, .setFill GRAY_LIGHT]
  ++ lines.enum.map (fun p => Op.textL (ML + 14) (y - 42 - (p.1 : ℚ) * 11) p.2)

/-- Page 3 (opportunities). -/
def page3 (field : String) : PageRun :=
  let y0 := headerY
  let y1 := y0 - 46
  let y2 := y1 - 22
  let y3 := y2 - 28
  let drawn := oppsDrawn field y3
  { ops :=
      bgOps ++ headerOps 3 6 ++ footerOps
      ++ badgeOps ML y0 "OPPORTUNITIES" GREEN
      ++ [.setFont "Courier-Bold" 24, .setFill WHITE, .textL ML y1 "What You\x27re Missing",
          .setFont "Courier" 10, .setFill GRAY,
          .textL ML y2 "AI & automation opportunities tailored to your business"]
      ++ drawn.flatMap (fun p => oppCardOps p.1 p.2),
    ys := [y0, y1, y2, y3] ++ loopYs oppH 10 drawn }

/-- The drawing calls of one phase card drawn at cursor `y`. -/
def phaseCardOps (ph : Phase) (y : ℚ) : List Op :=
  let lines := simpleSplit ph.desc 8 (CW - 30)
  let h := phaseH ph
  dashedCardOps ML (y - h) CW h ph.color
  ++ badgeOps (ML + 12) (y - 4) ph.tag ph.color
  ++ [.setFont "Courier-Bold" 11, .setFill WHITE, .textL (ML + 14) (y - 42) ph.title,
      .setFont "Courier" 8, .setFill GRAY_LIGHT]
  ++ lines.enum.map (fun p => Op.textL (ML + 14) (y - 58 - (p.1 : ℚ) * 11) p.2)

/-- Page 4 (roadmap). -/
def page4 (name field : String) : PageRun :=
  let y0 := headerY
  let y1 := y0 - 46
  let y2 := y1 - 22
  let y3 := y2 - 28
  let drawn := phasesDrawn y3
  { ops :=
      bgOps ++ headerOps 4 6 ++ footerOps
      ++ badgeOps ML y0 "YOUR ROADMAP" CYAN
      ++ [.setFont "Courier-Bold" 24, .setFill WHITE, .textL ML y1 "The Plan",
          .setFont "Courier" 10, .setFill GRAY,
          .textL ML y2 ("A phased approach for " ++ name ++ "\x27s " ++ field ++ " business")]
      ++ drawn.flatMap (fun p => phaseCardOps p.1 p.2),
    ys := [y0, y1, y2, y3] ++ loopYs phaseH 10 drawn }

/-- The drawing calls of one differentiator card drawn at cursor `y`. -/
def reasonCardOps (r : Reason) (y : ℚ) : List Op :=
  let lines := simpleSplit r.desc 8 (CW - 30)
  let h := reasonH r
  dashedCardOps ML (y - h) CW h r.color
  ++ colorBarOps (ML + 10) (y - 10) r.color
  ++ [.setFont "Courier-Bold" 9, .setFill WHITE, .textL (ML + 14) (y - 24) r.title,
      .setFont "Courier" 8, .setFill GRAY_LIGHT]
  ++ lines.enum.map (fun p => Op.textL (ML + 14) (y - 38 - (p.1 : ℚ) * 11) p.2)

/-- Page 5 (why us). -/
def page5 : PageRun :=
  let y0 := headerY
  let y1 := y0 - 46
  let y2 := y1 - 22
  let y3 := y2 - 28
  let drawn := reasonsDrawn y3
  { ops :=
      bgOps ++ headerOps 5 6 ++ footerOps
      ++ badgeOps ML y0 "WHY US" PURPLE
      ++ [.setFont "Courier-Bold" 24, .setFill WHITE, .textL ML y1 "Built Different",
          .setFont "Courier" 10, .setFill GRAY,
          .textL ML y2 "What makes Blok Blok Studio different"]
      ++ drawn.flatMap (fun p => reasonCardOps p.1 p.2),
    ys := [y0, y1, y2, y3] ++ loopYs reasonH 10 drawn }

/-- Page 6 (call to action). -/
def page6 (field : String) : PageRun :=
  let y0 := headerY
  let y1 := y0 - (logoH 160 + 50)
  let y2 := y1 - 34
  let y3 := y2 - 24
  let y4 := y3 - 30
  let y5 := y4 - 35
  let y6 := y5 - (42 + 14)
  let y7 := y6 - (42 + 14)
  let y8 := y7 - (42 + 24)
  let btnX := (W - 300) / 2
  { ops :=
      bgOps ++ headerOps 6 6 ++ footerOps
      ++ drawLogoOps ((W - 160) / 2) (y0 - logoH 160 - 10) 160
      ++ [.setFont "Courier-Bold" 20, .setFill WHITE, .textC (W / 2) y1 "Ready to Build",
          .setFont "Courier-Bold" 26, .setFill GREEN, .textC (W / 2) y2 "Systems That Scale?",
          .setFont "Courier" 10, .setFill GRAY,
          .textC (W / 2) y3 ("Let\x27s talk about what\x27s possible for your " ++ field ++ " business."),
          .setStroke GREEN, .setLineWidth 2, .line (W / 2 - 50) y4 (W / 2 + 50) y4,
          .setFill GREEN, .roundRect btnX (y5 - 42) 300 42 4 true false,
          .setFont "Courier-Bold" 12, .setFill BLACK,
          .textC (W / 2) (y5 - 18) "BOOK YOUR FREE DISCOVERY CALL",
          .setFont "Courier" 9, .textC (W / 2) (y5 - 32) "cal.com/chasehaynes/discovery",
          .setFill BLACK, .setStroke GRAY_DIM, .setLineWidth 1,
          .roundRect btnX (y6 - 42) 300 42 4 true true,
          .setFont "Courier-Bold" 12, .setFill WHITE,
          .textC (W / 2) (y6 - 18) "VISIT BLOK BLOK STUDIO",
          .setFont "Courier" 9, .setFill GRAY, .textC (W / 2) (y6 - 32) "blokblokstudio.com",
          .setFill BLACK, .setStroke GRAY_DIM,
          .roundRect btnX (y7 - 42) 300 42 4 true true,
          .setFont "Courier-Bold" 12, .setFill WHITE,
          .textC (W / 2) (y7 - 18) "FOLLOW ON INSTAGRAM",
          .setFont "Courier" 9, .setFill GRAY, .textC (W / 2) (y7 - 32) "@haynes2va",
          .setFont "Courier-Bold" 10, .setFill GREEN,
          .textC (W / 2) y8 "Let\x27s build something that works for you."],
    ys := [y0, y1, y2, y3, y4, y5, y6, y7, y8] }

/-! ## The document generator -/

/-- A finished page of the output document: the fixed page size of the
canvas (`pagesize=letter`) and the drawing calls recorded on it. -/
structure Page where
  width : ℚ
  height : ℚ
  ops : List Op
deriving DecidableEq

/-- `generate_pdf(name, email, field, website, problem, output)`: draws the
six fixed pages in order; each `showPage()` closes one letter-sized page.
Neither `email` nor `website` is used by any drawing call. -/
def generatePdf (name email field website problem : String) : List Page :=
  [⟨W, H, (page1 name field).ops⟩,
   ⟨W, H, (page2 field problem).ops⟩,
   ⟨W, H, (page3 field).ops⟩,
   ⟨W, H, (page4 name field).ops⟩,
   ⟨W, H, page5.ops⟩,
   ⟨W, H, (page6 field).ops⟩]

/-! ## The HTTP request handler -/

/-- A parsed JSON value (the result of `json.loads`). -/
inductive JValue where
  | null
  | bool (b : Bool)
  | num (q : ℚ)
  | str (s : String)
  | arr (elems : List JValue)
  | obj (fields : List (String × JValue))

/-- Python truthiness of a parsed JSON value, as used by
`all([name, email, field, problem])`. -/
def truthy : JValue → Bool
  | .null => false
  | .bool b => b
  | .num q => if q = 0 then false else true
  | .str s => if s = "" then false else true
  | .arr xs => if xs.isEmpty then false else true
  | .obj fs => if fs.isEmpty then false else true

/-- `body.get(key, JValue.str "")` on the parsed JSON object: the value of
the last binding of `key` (Python dict semantics for duplicate keys), or the
empty string when the key is absent. -/
def pyGet (body : List (String × JValue)) (key : String) : JValue :=
  ((body.reverse.find? (fun p => p.1 == key)).map Prod.snd).getD (.str "")

/-- The validation check of `do_POST`:
`all([name, email, field, problem])` over the extracted values. -/
def requestValid (body : List (String × JValue)) : Bool :=
  truthy (pyGet body "name") && truthy (pyGet body "email")
    && truthy (pyGet body "field") && truthy (pyGet body "problem")

/-- The exact JSON error body written on validation failure
(`json.dumps` output, braces escaped). -/
def errBody : String := "\x7b\"error\": \"Missing required fields\"\x7d"

/-- The outcome of `do_POST` on a parsed JSON object body:
either the 400 validation error (the PDF generator is not invoked), or the
200 response whose constructor records the invocation of the generator with
the five extracted field values. -/
inductive DoPostResult where
  | errorReply (status : ℕ) (body : String)
  | pdfReply (status : ℕ) (name email field website problem : JValue)

/-- `handler.do_POST` on a parsed JSON object body. -/
def doPost (body : List (String × JValue)) : DoPostResult :=
  if requestValid body then
    .pdfReply 200 (pyGet body "name") (pyGet body "email") (pyGet body "field")
      (pyGet body "website") (pyGet body "problem")
  else
    .errorReply 400 errBody

/-! ## Temporary-file lifecycle of `do_POST`

The `try/finally` block of the handler is embedded as explicit control
flow: the temp file is created before the `try`, the body of the `try`
runs until its first failing step (if any), the `finally` clause then
removes the temp file, and a pending exception propagates afterwards. -/

/-- The steps inside the `try` block that can raise. -/
inductive GenStep where
  | generate
  | readBack
  | respond
deriving DecidableEq

/-- Observable events of one `do_POST` execution. -/
inductive Ev where
  | send400
  | createTmp
  | genPdf
  | readTmp
  | send200
  | removeTmp
  | raised (s : GenStep)
deriving DecidableEq

/-- The events of the `try` body when `failAt` is the first step that
raises (`none` when every step succeeds). -/
def trySeq : Option GenStep → List Ev
  | none => [.genPdf, .readTmp, .send200]
  | some .generate => []
  | some .readBack => [.genPdf]
  | some .respond => [.genPdf, .readTmp]

/-- The exception propagating out of the handler after the `finally`
clause ran, if any. -/
def raisedTail : Option GenStep → List Ev
  | none => []
  | some s => [.raised s]

/-- The event trace of `handler.do_POST`: an invalid body is answered with
the 400 reply before any file is created; otherwise the temp file is
created, the `try` body runs up to its first failing step, and the
`finally` clause removes the temp file on every exit path. -/
def doPostTrace (body : List (String × JValue)) (failAt : Option GenStep) : List Ev :=
  if requestValid body then
    [Ev.createTmp] ++ trySeq failAt ++ [Ev.removeTmp] ++ raisedTail failAt
  else [Ev.send400]

/-! ## Auxiliary definitions used by the proofs and their witnesses -/

/-- A well-formed word: nonempty and free of whitespace. -/
def Tok (w : List Char) : Prop := w ≠ [] ∧ ∀ c ∈ w, isWS c = false

/-- Joins words with single spaces (the separator the greedy wrap uses when
packing words onto one line). -/
def joinSp : List (List Char) → List Char
  | [] => []
  | [w] => w
  | w :: v :: ws => w ++ ' ' :: joinSp (v :: ws)

/-- A line already in wrapped form: re-wrapping it reproduces it alone, and
it contains no newline. -/
def OneLine (size mW : ℚ) (l : List Char) : Prop :=
  wrapLine size mW l = [l] ∧ ∀ c ∈ l, c ≠ '\n'

/-- A request body whose required field `name` carries the given value and
whose other required fields are nonempty strings. -/
def bodyWithName (v : JValue) : List (String × JValue) :=
  [("name", v), ("email", .str "a@x.com"), ("field", .str "Plumbing"),
   ("problem", .str "x")]

/-- A problem statement whose quoted form wraps to 34 visual lines
(34 newline-separated segments), driving the page-2 cursor below the
60-point floor before any statistic card can be drawn. -/
def longProblem : String := String.intercalate "\n" (List.replicate 34 "a")

/-- 42 one-character words (83 characters in total): wraps to two lines at
font size 9 in `CW - 30` points. -/
def manyShortWords : String := String.intercalate " " (List.replicate 42 "a")

/-- One unbreakable 83-character word: wraps to a single (overflowing) line. -/
def oneLongWord : String := String.mk (List.replicate 83 'a')

/-! ## Word-wrap lemmas

The goal is the idempotence of `simpleSplit` (claim about re-wrapping
already-wrapped lines): every line it produces is reproduced unchanged, as a
single line, when fed back through `simpleSplit` with the same size and
width. -/

theorem tokensAux_tok (cs : List Char) :
    ∀ acc : List Char, (∀ c ∈ acc, isWS c = false) →
      ∀ w ∈ tokensAux cs acc, Tok w := by
  induction cs with
  | nil =>
    intro acc hacc w hw
    simp only [tokensAux] at hw
    split at hw
    · exact absurd hw (List.not_mem_nil w)
    · next hne =>
      rw [List.mem_singleton] at hw
      subst hw
      refine ⟨fun h => hne (by simpa using congrArg List.reverse h), ?_⟩
      intro c hc
      exact hacc c (List.mem_reverse.mp hc)
  | cons c cs ih =>
    intro acc hacc w hw
    simp only [tokensAux] at hw
    split at hw
    · split at hw
      · exact ih [] (by simp) w hw
      · next hne =>
        rcases List.mem_cons.mp hw with h | h
        · subst h
          refine ⟨fun h => hne (by simpa using congrArg List.reverse h), ?_⟩
          intro x hx
          exact hacc x (List.mem_reverse.mp hx)
        · exact ih [] (by simp) w h
    · next hcws =>
      refine ih (c :: acc) ?_ w hw
      intro x hx
      rcases List.mem_cons.mp hx with h | h
      · subst h; exact Bool.of_not_eq_true hcws
      · exact hacc x h

theorem tokens_tok (cs : List Char) : ∀ w ∈ tokens cs, Tok w :=
  tokensAux_tok cs [] (by simp)

theorem joinSp_cons_ne (w : List Char) (ws : List (List Char)) (h : ws ≠ []) :
    joinSp (w :: ws) = w ++ ' ' :: joinSp ws := by
  cases ws with
  | nil => exact absurd rfl h
  | cons v vs => rfl

theorem joinSp_snoc (g : List (List Char)) (w : List Char) (h : g ≠ []) :
    joinSp (g ++ [w]) = joinSp g ++ ' ' :: w := by
  induction g with
  | nil => exact absurd rfl h
  | cons x g ih =>
    cases g with
    | nil => rfl
    | cons v vs =>
      have h1 : (v :: vs : List (List Char)) ≠ [] := by simp
      have h2 : ((v :: vs) ++ [w] : List (List Char)) ≠ [] := by simp
      rw [List.cons_append, joinSp_cons_ne x _ h2, joinSp_cons_ne x _ h1, ih h1,
        List.append_assoc]
      rfl

theorem mem_joinSp (g : List (List Char)) (c : Char) (hc : c ∈ joinSp g) :
    c = ' ' ∨ ∃ w ∈ g, c ∈ w := by
  induction g with
  | nil => exact absurd hc (List.not_mem_nil c)
  | cons x g ih =>
    cases g with
    | nil =>
      right
      exact ⟨x, List.mem_singleton_self x, hc⟩
    | cons v vs =>
      rw [joinSp_cons_ne x _ (by simp), List.mem_append, List.mem_cons] at hc
      rcases hc with h | h | h
      · exact Or.inr ⟨x, by simp, h⟩
      · exact Or.inl h
      · rcases ih h with h | ⟨w, hw, hcw⟩
        · exact Or.inl h
        · exact Or.inr ⟨w, List.mem_cons_of_mem x hw, hcw⟩

theorem tokensAux_nonws (w : List Char) :
    ∀ (r acc : List Char), (∀ c ∈ w, isWS c = false) →
      tokensAux (w ++ r) acc = tokensAux r (w.reverse ++ acc) := by
  induction w with
  | nil => intro r acc _; simp
  | cons c w ih =>
    intro r acc hw
    have hc : isWS c = false := hw c (by simp)
    simp only [List.cons_append, tokensAux, hc, Bool.false_eq_true, if_false]
    show tokensAux (w ++ r) (c :: acc) = tokensAux r ((c :: w).reverse ++ acc)
    rw [ih r (c :: acc) (fun x hx => hw x (List.mem_cons_of_mem c hx)),
      List.reverse_cons, List.append_assoc]
    rfl

theorem tokens_join (g : List (List Char)) (hne : g ≠ [])
    (htok : ∀ w ∈ g, Tok w) : tokens (joinSp g) = g := by
  induction g with
  | nil => exact absurd rfl hne
  | cons w g ih =>
    have hw : Tok w := htok w (by simp)
    cases g with
    | nil =>
      show tokensAux (joinSp [w]) [] = [w]
      have : joinSp [w] = w ++ [] := by simp [joinSp]
      rw [this, tokensAux_nonws w [] [] hw.2]
      simp only [tokensAux, List.append_nil]
      rw [if_neg (by simpa using fun h => hw.1 (by simpa using congrArg List.reverse h))]
      simp
    | cons v vs =>
      have hg : (v :: vs : List (List Char)) ≠ [] := by simp
      show tokensAux (joinSp (w :: v :: vs)) [] = w :: v :: vs
      rw [joinSp_cons_ne w _ hg, tokensAux_nonws w _ [] hw.2]
      have hsp : isWS ' ' = true := by decide
      simp only [tokensAux, hsp, if_true, List.append_nil]
      rw [if_neg (by simpa using fun h => hw.1 (by simpa using congrArg List.reverse h))]
      rw [List.reverse_reverse]
      exact congrArg (w :: ·) (ih hg (fun x hx => htok x (List.mem_cons_of_mem w hx)))

theorem wrapAux_ne_nil (size mW : ℚ) :
    ∀ (ws : List (List Char)) (cur : List Char), wrapAux size mW ws cur ≠ [] := by
  intro ws
  induction ws with
  | nil => intro cur; simp [wrapAux]
  | cons w ws ih =>
    intro cur
    simp only [wrapAux]
    split
    · exact ih (cur ++ ' ' :: w)
    · simp

theorem joinSp_merge (a b : List Char) (rest : List (List Char)) :
    joinSp ((a ++ ' ' :: b) :: rest) = a ++ ' ' :: joinSp (b :: rest) := by
  cases rest with
  | nil => rfl
  | cons r rs =>
    rw [joinSp_cons_ne (a ++ ' ' :: b) (r :: rs) (by simp),
      joinSp_cons_ne b (r :: rs) (by simp)]
    simp [List.append_assoc]

theorem fits_snoc (size mW : ℚ) :
    ∀ (gt : List (List Char)) (gh w : List Char),
      wrapAux size mW gt gh = [joinSp (gh :: gt)] →
      strW size (joinSp (gh :: gt) ++ ' ' :: w) ≤ mW →
      wrapAux size mW (gt ++ [w]) gh = [joinSp ((gh :: gt) ++ [w])] := by
  intro gt
  induction gt with
  | nil =>
    intro gh w _ hfit
    have hj : joinSp [gh] = gh := rfl
    rw [hj] at hfit
    show wrapAux size mW [w] gh = [joinSp [gh, w]]
    simp only [wrapAux, hfit, if_true]
    rfl
  | cons t ts ih =>
    intro gh w hone hfit
    simp only [wrapAux] at hone
    split at hone
    · next hc =>
      have hjm := joinSp_merge gh t ts
      have hjc : joinSp (gh :: t :: ts) = gh ++ ' ' :: joinSp (t :: ts) :=
        joinSp_cons_ne gh (t :: ts) (by simp)
      have hone2 : wrapAux size mW ts (gh ++ ' ' :: t) = [joinSp ((gh ++ ' ' :: t) :: ts)] := by
        rw [hjm, ← hjc]; exact hone
      have hfit2 : strW size (joinSp ((gh ++ ' ' :: t) :: ts) ++ ' ' :: w) ≤ mW := by
        rw [hjm, ← hjc]; exact hfit
      have h3 := ih (gh ++ ' ' :: t) w hone2 hfit2
      show wrapAux size mW (t :: (ts ++ [w])) gh = [joinSp (gh :: t :: (ts ++ [w]))]
      simp only [wrapAux, hc, if_true]
      rw [h3]
      have h4 : ((gh ++ ' ' :: t) :: ts) ++ [w] = (gh ++ ' ' :: t) :: (ts ++ [w]) := rfl
      rw [h4, joinSp_merge gh t (ts ++ [w]),
        joinSp_cons_ne gh (t :: (ts ++ [w])) (by simp)]
    · next hc =>
      exfalso
      have htl : wrapAux size mW ts t = [] := by
        have h := congrArg List.tail hone
        simpa using h
      exact wrapAux_ne_nil size mW ts t htl

theorem oneLine_join (size mW : ℚ) (gh : List Char) (gt : List (List Char))
    (htok : ∀ t ∈ gh :: gt, Tok t)
    (hfits : wrapAux size mW gt gh = [joinSp (gh :: gt)]) :
    OneLine size mW (joinSp (gh :: gt)) := by
  constructor
  · show wrapWords size mW (tokens (joinSp (gh :: gt))) = [joinSp (gh :: gt)]
    rw [tokens_join (gh :: gt) (by simp) htok]
    exact hfits
  · intro c hc
    rcases mem_joinSp _ c hc with h | ⟨t, ht, hct⟩
    · subst h; decide
    · intro hnl
      have := (htok t ht).2 c hct
      rw [hnl] at this
      exact absurd this (by decide)

theorem wrapAux_self (size mW : ℚ) :
    ∀ (ws : List (List Char)) (gh : List Char) (gt : List (List Char)),
      (∀ w ∈ ws, Tok w) → (∀ t ∈ gh :: gt, Tok t) →
      wrapAux size mW gt gh = [joinSp (gh :: gt)] →
      ∀ l ∈ wrapAux size mW ws (joinSp (gh :: gt)), OneLine size mW l := by
  intro ws
  induction ws with
  | nil =>
    intro gh gt _ htok hfits l hl
    simp only [wrapAux, List.mem_singleton] at hl
    subst hl
    exact oneLine_join size mW gh gt htok hfits
  | cons w ws ih =>
    intro gh gt hws htok hfits l hl
    simp only [wrapAux] at hl
    split at hl
    · next hc =>
      have hsnoc : joinSp (gh :: gt) ++ ' ' :: w = joinSp (gh :: (gt ++ [w])) := by
        rw [show (gh :: (gt ++ [w])) = ((gh :: gt) ++ [w]) from rfl,
          joinSp_snoc (gh :: gt) w (by simp)]
      rw [hsnoc] at hl
      refine ih gh (gt ++ [w]) (fun x hx => hws x (List.mem_cons_of_mem w hx)) ?_ ?_ l hl
      · intro t ht
        rcases List.mem_cons.mp ht with h | h
        · exact htok t (by simp [h])
        · rcases List.mem_append.mp h with h2 | h2
          · exact htok t (List.mem_cons_of_mem gh h2)
          · rw [List.mem_singleton] at h2
            subst h2
            exact hws t (by simp)
      · have := fits_snoc size mW gt gh w hfits hc
        rw [show ((gh :: gt) ++ [w]) = (gh :: (gt ++ [w])) from rfl] at this
        exact this
    · next hc =>
      rcases List.mem_cons.mp hl with h | h
      · subst h
        exact oneLine_join size mW gh gt htok hfits
      · have hw : Tok w := hws w (by simp)
        have : ∀ l ∈ wrapAux size mW ws (joinSp [w]), OneLine size mW l := by
          refine ih w [] (fun x hx => hws x (List.mem_cons_of_mem w hx)) ?_ rfl
          intro t ht
          rw [List.mem_singleton] at ht
          subst ht
          exact hw
        exact this l (by simpa using h)

theorem wrapLine_self (size mW : ℚ) (cs : List Char) :
    ∀ l ∈ wrapLine size mW cs, OneLine size mW l := by
  intro l hl
  unfold wrapLine at hl
  cases htk : tokens cs with
  | nil =>
    rw [htk] at hl
    exact absurd hl (by simp [wrapWords])
  | cons w ws =>
    rw [htk] at hl
    have htok : ∀ x ∈ tokens cs, Tok x := tokens_tok cs
    rw [htk] at htok
    refine wrapAux_self size mW ws w [] ?_ ?_ rfl l (by simpa [wrapWords] using hl)
    · exact fun x hx => htok x (List.mem_cons_of_mem w hx)
    · intro t ht
      rw [List.mem_singleton] at ht
      subst ht
      exact htok t (by simp)

theorem splitNLAux_no_nl (cs : List Char) :
    ∀ acc : List Char, (∀ c ∈ cs, c ≠ '\n') →
      splitNLAux cs acc = [acc.reverse ++ cs] := by
  induction cs with
  | nil => intro acc _; simp [splitNLAux]
  | cons c cs ih =>
    intro acc h
    have hc : ¬ c = '\n' := h c (by simp)
    simp only [splitNLAux, hc, if_false]
    rw [ih (c :: acc) (fun x hx => h x (List.mem_cons_of_mem c hx))]
    simp

theorem splitNL_no_nl (cs : List Char) (h : ∀ c ∈ cs, c ≠ '\n') :
    splitNL cs = [cs] := by
  have := splitNLAux_no_nl cs [] h
  simpa [splitNL] using this

/-- Claim C5: word-wrap idempotence — every line produced by `simpleSplit`
is reproduced unchanged, as a single-element sequence, when fed back through
`simpleSplit` with the same font size and width budget, so re-wrapping an
already-wrapped sequence of lines reproduces the same sequence. -/
theorem c5_wrap_idempotent (text : String) (size mW : ℚ) :
    ∀ l ∈ simpleSplit text size mW, simpleSplit l size mW = [l] := by
  intro l hl
  simp only [simpleSplit, List.mem_map, List.mem_flatMap] at hl
  obtain ⟨cs, ⟨ln, hln, hcs⟩, rfl⟩ := hl
  have h1 := wrapLine_self size mW ln cs hcs
  show ((splitNL (String.mk cs).data).flatMap (wrapLine size mW)).map (fun x => String.mk x)
      = [String.mk cs]
  have hdata : (String.mk cs).data = cs := rfl
  rw [hdata, splitNL_no_nl cs h1.2]
  simp [h1.1]

/-- Witness for C5 at a concrete input: `simpleSplit "hello world" 10 30`
produces the line `"hello"`, and re-wrapping that line returns it alone. -/
theorem c5_wrap_idempotent_witness : simpleSplit "hello" 10 30 = ["hello"] :=
  c5_wrap_idempotent "hello world" 10 30 "hello" (by with_unfolding_all decide)

/-! ## Card-loop lemmas (truncation floor of pages 2 to 5) -/

theorem cardLoop_bottom {α : Type} (hOf : α → ℚ) (gap : ℚ) :
    ∀ (items : List α) (y : ℚ), ∀ p ∈ cardLoop hOf gap items y, 60 ≤ p.2 - hOf p.1 := by
  intro items
  induction items with
  | nil => intro y p hp; exact absurd hp (List.not_mem_nil p)
  | cons a as ih =>
    intro y p hp
    simp only [cardLoop] at hp
    split at hp
    · exact absurd hp (List.not_mem_nil p)
    · next hge =>
      rcases List.mem_cons.mp hp with h | h
      · subst h
        simpa using not_lt.mp hge
      · exact ih (y - hOf a - gap) p h

theorem cardLoop_take {α : Type} (hOf : α → ℚ) (gap : ℚ) :
    ∀ (items : List α) (y : ℚ),
      (cardLoop hOf gap items y).map Prod.fst
        = items.take (cardLoop hOf gap items y).length := by
  intro items
  induction items with
  | nil => intro y; rfl
  | cons a as ih =>
    intro y
    simp only [cardLoop]
    split
    · rfl
    · simp only [List.map_cons, List.length_cons, List.take_succ_cons]
      rw [ih (y - hOf a - gap)]

theorem cardLoop_stop {α : Type} (hOf : α → ℚ) (gap : ℚ) (a : α) (as : List α)
    (y : ℚ) (h : y - hOf a < 60) : cardLoop hOf gap (a :: as) y = [] := by
  simp only [cardLoop, if_pos h]

theorem cardLoop_ys_chain {α : Type} (hOf : α → ℚ) (gap : ℚ)
    (h0 : ∀ a, 0 ≤ hOf a) (hg : 0 ≤ gap) :
    ∀ (items : List α) (y : ℚ),
      List.Chain' (fun a b => b ≤ a) (y :: loopYs hOf gap (cardLoop hOf gap items y)) := by
  intro items
  induction items with
  | nil => intro y; simp [cardLoop, loopYs]
  | cons a as ih =>
    intro y
    simp only [cardLoop]
    split
    · simp [loopYs]
    · simp only [loopYs, List.map_cons]
      rw [List.chain'_cons]
      constructor
      · have := h0 a
        linarith
      · simpa [loopYs] using ih (y - hOf a - gap)

/-! ## Nonnegativity of the computed card heights -/

theorem statH_nonneg (s : Stat) : 0 ≤ statH s := by
  unfold statH statCardHeight
  have h : (0 : ℚ) ≤ ((simpleSplit s.desc 9 (CW - 30)).length : ℚ) := Nat.cast_nonneg _
  linarith

theorem oppH_nonneg (o : Opp) : 0 ≤ oppH o := by
  unfold oppH
  have h : (0 : ℚ) ≤ ((simpleSplit o.desc 8 (CW - 30)).length : ℚ) := Nat.cast_nonneg _
  linarith

theorem phaseH_nonneg (p : Phase) : 0 ≤ phaseH p := by
  unfold phaseH
  have h : (0 : ℚ) ≤ ((simpleSplit p.desc 8 (CW - 30)).length : ℚ) := Nat.cast_nonneg _
  linarith

theorem reasonH_nonneg (r : Reason) : 0 ≤ reasonH r := by
  unfold reasonH
  have h : (0 : ℚ) ≤ ((simpleSplit r.desc 8 (CW - 30)).length : ℚ) := Nat.cast_nonneg _
  linarith

theorem problemCardH_nonneg (p : String) : 0 ≤ problemCardH p := by
  unfold problemCardH
  have h : (0 : ℚ) ≤ (((problemLines p)).length : ℚ) := Nat.cast_nonneg _
  linarith

/-! ## Per-page cursor monotonicity -/

theorem cardLoop_head_mem {α : Type} (hOf : α → ℚ) (gap : ℚ) (a : α) (as : List α)
    (y : ℚ) (h : ¬ (y - hOf a < 60)) : (a, y) ∈ cardLoop hOf gap (a :: as) y := by
  simp only [cardLoop, if_neg h]
  exact List.mem_cons_self _ _

theorem page1_ys_chain (name field : String) :
    List.Chain' (fun a b => b ≤ a) (page1 name field).ys := by
  simp only [page1]
  simp only [List.chain'_cons, List.chain'_singleton, and_true]
  refine ⟨?_, ?_, ?_, ?_, ?_, ?_, ?_⟩ <;>
    exact sub_le_self _ (by norm_num [logoH, LOGO_ASPECT])

theorem page2_ys_chain (field problem : String) :
    List.Chain' (fun a b => b ≤ a) (page2 field problem).ys := by
  simp only [page2, List.cons_append, List.nil_append]
  rw [List.chain'_cons, List.chain'_cons, List.chain'_cons, List.chain'_cons]
  refine ⟨sub_le_self _ (by norm_num), sub_le_self _ (by norm_num),
    sub_le_self _ (by norm_num), sub_le_self _ ?_, ?_⟩
  · have := problemCardH_nonneg problem
    linarith
  · simpa only [statsDrawn] using
      cardLoop_ys_chain statH 12 statH_nonneg (by norm_num) stats
        (headerY - 46 - 22 - 28 - (problemCardH problem + 14))

theorem page3_ys_chain (field : String) :
    List.Chain' (fun a b => b ≤ a) (page3 field).ys := by
  simp only [page3, List.cons_append, List.nil_append]
  rw [List.chain'_cons, List.chain'_cons, List.chain'_cons]
  refine ⟨sub_le_self _ (by norm_num), sub_le_self _ (by norm_num),
    sub_le_self _ (by norm_num), ?_⟩
  simpa only [oppsDrawn] using
    cardLoop_ys_chain oppH 10 oppH_nonneg (by norm_num) (opportunities field)
      (headerY - 46 - 22 - 28)

theorem page4_ys_chain (name field : String) :
    List.Chain' (fun a b => b ≤ a) (page4 name field).ys := by
  simp only [page4, List.cons_append, List.nil_append]
  rw [List.chain'_cons, List.chain'_cons, List.chain'_cons]
  refine ⟨sub_le_self _ (by norm_num), sub_le_self _ (by norm_num),
    sub_le_self _ (by norm_num), ?_⟩
  simpa only [phasesDrawn] using
    cardLoop_ys_chain phaseH 10 phaseH_nonneg (by norm_num) phases
      (headerY - 46 - 22 - 28)

theorem page5_ys_chain :
    List.Chain' (fun a b => b ≤ a) page5.ys := by
  simp only [page5, List.cons_append, List.nil_append]
  rw [List.chain'_cons, List.chain'_cons, List.chain'_cons]
  refine ⟨sub_le_self _ (by norm_num), sub_le_self _ (by norm_num),
    sub_le_self _ (by norm_num), ?_⟩
  simpa only [reasonsDrawn] using
    cardLoop_ys_chain reasonH 10 reasonH_nonneg (by norm_num) reasons
      (headerY - 46 - 22 - 28)

theorem page6_ys_chain (field : String) :
    List.Chain' (fun a b => b ≤ a) (page6 field).ys := by
  simp only [page6]
  simp only [List.chain'_cons, List.chain'_singleton, and_true]
  refine ⟨?_, ?_, ?_, ?_, ?_, ?_, ?_, ?_⟩ <;>
    exact sub_le_self _ (by norm_num [logoH, LOGO_ASPECT])

/-! ## The claims -/

/-- Claim C1: for every POST body that omits, or binds to the empty string,
any of the four required fields name, email, field, problem, `do_POST`
answers HTTP 400 with the exact JSON error body and never invokes the PDF
generator; and whenever all four required fields are bound to nonempty
strings the 400 reply is not produced (so an absent or empty website alone
never triggers it). -/
theorem c1_validation (body : List (String × JValue)) :
    ((pyGet body "name" = .str "" ∨ pyGet body "email" = .str "" ∨
        pyGet body "field" = .str "" ∨ pyGet body "problem" = .str "") →
      doPost body = .errorReply 400 errBody) ∧
    (((∃ s, s ≠ "" ∧ pyGet body "name" = .str s) ∧
        (∃ s, s ≠ "" ∧ pyGet body "email" = .str s) ∧
        (∃ s, s ≠ "" ∧ pyGet body "field" = .str s) ∧
        (∃ s, s ≠ "" ∧ pyGet body "problem" = .str s)) →
      doPost body = .pdfReply 200 (pyGet body "name") (pyGet body "email")
        (pyGet body "field") (pyGet body "website") (pyGet body "problem")) := by
  constructor
  · intro h
    have hv : requestValid body = false := by
      unfold requestValid
      rcases h with h | h | h | h <;> rw [h] <;> simp [truthy]
    unfold doPost
    rw [hv]
    simp
  · rintro ⟨⟨s1, hs1, e1⟩, ⟨s2, hs2, e2⟩, ⟨s3, hs3, e3⟩, ⟨s4, hs4, e4⟩⟩
    have hv : requestValid body = true := by
      unfold requestValid
      rw [e1, e2, e3, e4]
      simp [truthy, hs1, hs2, hs3, hs4]
    unfold doPost
    rw [hv]
    simp

/-- Witness for C1: a body with `name` absent is answered 400; the
scenario body with all four fields nonempty is answered 200 with the
generator invoked. -/
theorem c1_validation_witness :
    doPost [("email", JValue.str "a@x.com")] = .errorReply 400 errBody ∧
    doPost (bodyWithName (.str "Acme Co"))
      = .pdfReply 200 (.str "Acme Co") (.str "a@x.com") (.str "Plumbing")
          (.str "") (.str "x") := by
  constructor
  · exact (c1_validation [("email", JValue.str "a@x.com")]).1 (Or.inl rfl)
  · exact (c1_validation (bodyWithName (.str "Acme Co"))).2
      ⟨⟨"Acme Co", by decide, rfl⟩, ⟨"a@x.com", by decide, rfl⟩,
       ⟨"Plumbing", by decide, rfl⟩, ⟨"x", by decide, rfl⟩⟩

/-- Claim C2: for every valid input (nonempty name, email, field, problem;
any website), the generated document has exactly 6 pages, each of the fixed
US-Letter size of 612 by 792 points. -/
theorem c2_six_pages (name email field website problem : String)
    (hn : name ≠ "") (he : email ≠ "") (hf : field ≠ "") (hp : problem ≠ "") :
    (generatePdf name email field website problem).length = 6 ∧
    ∀ pg ∈ generatePdf name email field website problem,
      pg.width = 612 ∧ pg.height = 792 := by
  refine ⟨rfl, ?_⟩
  intro pg hpg
  simp only [generatePdf, List.mem_cons, List.not_mem_nil, or_false] at hpg
  rcases hpg with rfl | rfl | rfl | rfl | rfl | rfl <;> exact ⟨rfl, rfl⟩

/-- Witness for C2 at the scenario input given in the spec. -/
theorem c2_six_pages_witness :
    (generatePdf "Acme Co" "a@x.com" "Plumbing" "acme.com"
        "We lose leads because no one answers the phone after hours.").length = 6 :=
  (c2_six_pages "Acme Co" "a@x.com" "Plumbing" "acme.com"
    "We lose leads because no one answers the phone after hours."
    (by decide) (by decide) (by decide) (by decide)).1

/-- Claim C3: on each of pages 2 to 5, the card loop checks
`cursor - cardHeight < 60` before drawing each card and stops there when the
check fires, silently dropping the remaining cards (the drawn cards are a
prefix of the card list and the page count never grows beyond the fixed 6);
every drawn card has its bottom edge `cursor - cardHeight` at or above 60
points. -/
theorem c3_truncation (field problem : String) :
    (∀ p ∈ statsDrawn (page2StatsStart problem), 60 ≤ p.2 - statH p.1) ∧
    (statsDrawn (page2StatsStart problem)).map Prod.fst
      = stats.take (statsDrawn (page2StatsStart problem)).length ∧
    (∀ a as y, stats = a :: as → y - statH a < 60 → statsDrawn y = []) ∧
    (∀ p ∈ oppsDrawn field bodyStartY, 60 ≤ p.2 - oppH p.1) ∧
    (oppsDrawn field bodyStartY).map Prod.fst
      = (opportunities field).take (oppsDrawn field bodyStartY).length ∧
    (∀ a as y, opportunities field = a :: as → y - oppH a < 60 →
      oppsDrawn field y = []) ∧
    (∀ p ∈ phasesDrawn bodyStartY, 60 ≤ p.2 - phaseH p.1) ∧
    (phasesDrawn bodyStartY).map Prod.fst
      = phases.take (phasesDrawn bodyStartY).length ∧
    (∀ a as y, phases = a :: as → y - phaseH a < 60 → phasesDrawn y = []) ∧
    (∀ p ∈ reasonsDrawn bodyStartY, 60 ≤ p.2 - reasonH p.1) ∧
    (reasonsDrawn bodyStartY).map Prod.fst
      = reasons.take (reasonsDrawn bodyStartY).length ∧
    (∀ a as y, reasons = a :: as → y - reasonH a < 60 → reasonsDrawn y = []) ∧
    ∀ name email website,
      (generatePdf name email field website problem).length = 6 := by
  refine ⟨cardLoop_bottom statH 12 stats _, cardLoop_take statH 12 stats _, ?_,
    cardLoop_bottom oppH 10 (opportunities field) _,
    cardLoop_take oppH 10 (opportunities field) _, ?_,
    cardLoop_bottom phaseH 10 phases _, cardLoop_take phaseH 10 phases _, ?_,
    cardLoop_bottom reasonH 10 reasons _, cardLoop_take reasonH 10 reasons _, ?_,
    fun _ _ _ => rfl⟩
  · intro a as y ha h
    unfold statsDrawn
    rw [ha]
    exact cardLoop_stop statH 12 a as y h
  · intro a as y ha h
    unfold oppsDrawn
    rw [ha]
    exact cardLoop_stop oppH 10 a as y h
  · intro a as y ha h
    unfold phasesDrawn
    rw [ha]
    exact cardLoop_stop phaseH 10 a as y h
  · intro a as y ha h
    unfold reasonsDrawn
    rw [ha]
    exact cardLoop_stop reasonH 10 a as y h

set_option maxRecDepth 80000 in
/-- Witness for C3: the first card of each loop is actually drawn with its
bottom edge above the floor, a cursor already below the floor draws nothing,
and the document keeps its 6 pages. -/
theorem c3_truncation_witness :
    60 ≤ page2StatsStart "x" - statH stat1 ∧
    statsDrawn 0 = [] ∧
    60 ≤ bodyStartY - oppH (opp1 "Plumbing") ∧
    60 ≤ bodyStartY - phaseH phase1 ∧
    60 ≤ bodyStartY - reasonH reason1 ∧
    (generatePdf "Acme Co" "a@x.com" "Plumbing" "acme.com" "x").length = 6 := by
  refine ⟨?_, ?_, ?_, ?_, ?_, ?_⟩
  · refine (c3_truncation "Plumbing" "x").1 (stat1, page2StatsStart "x") ?_
    unfold statsDrawn
    rw [show stats = stat1 :: [stat2, stat3] from rfl]
    exact cardLoop_head_mem statH 12 stat1 [stat2, stat3] _
      (by with_unfolding_all decide)
  · exact (c3_truncation "Plumbing" "x").2.2.1 stat1 [stat2, stat3] 0 rfl
      (by with_unfolding_all decide)
  · refine (c3_truncation "Plumbing" "x").2.2.2.1 (opp1 "Plumbing", bodyStartY) ?_
    unfold oppsDrawn
    rw [show opportunities "Plumbing" = opp1 "Plumbing" :: [opp2, opp3, opp4] from rfl]
    exact cardLoop_head_mem oppH 10 (opp1 "Plumbing") [opp2, opp3, opp4] _
      (by with_unfolding_all decide)
  · refine (c3_truncation "Plumbing" "x").2.2.2.2.2.2.1 (phase1, bodyStartY) ?_
    unfold phasesDrawn
    rw [show phases = phase1 :: [phase2, phase3, phase4] from rfl]
    exact cardLoop_head_mem phaseH 10 phase1 [phase2, phase3, phase4] _
      (by with_unfolding_all decide)
  · refine (c3_truncation "Plumbing" "x").2.2.2.2.2.2.2.2.2.1 (reason1, bodyStartY) ?_
    unfold reasonsDrawn
    rw [show reasons = reason1 :: [reason2, reason3, reason4, reason5] from rfl]
    exact cardLoop_head_mem reasonH 10 reason1 [reason2, reason3, reason4, reason5] _
      (by with_unfolding_all decide)
  · exact (c3_truncation "Plumbing" "x").2.2.2.2.2.2.2.2.2.2.2.2
      "Acme Co" "a@x.com" "acme.com"

set_option maxRecDepth 80000 in
/-- Counterexample to C4: at a remaining vertical space of exactly 61 points
the statistics loop draws no card at all (the first statistic card is 64
points tall and `61 - 64 < 60` fires the floor check), contradicting the
claim that exactly 61 points of remaining space allow at least one card. -/
theorem c4_counterexample : statsDrawn (61 : ℚ) = [] := by
  with_unfolding_all decide

/-- Claim C4 as amended: on page 2, a problem statement that leaves less
than 60 points of remaining vertical space yields zero statistic cards; a
remaining space of exactly 61 points also yields zero cards — at least one
statistic card requires at least 124 points (the 64-point first card plus
the 60-point floor) — and no problem statement can leave exactly 61 points,
the page-2 cursor being `273448/513 - 14 * lineCount`. -/
theorem c4_amended :
    (∀ problem : String, page2StatsStart problem < 60 →
      statsDrawn (page2StatsStart problem) = []) ∧
    (∀ y : ℚ, 1 ≤ (statsDrawn y).length ↔ 124 ≤ y) ∧
    (∀ problem : String, page2StatsStart problem ≠ 61) := by
  have e1 : statH stat1 = 64 := by with_unfolding_all decide
  refine ⟨?_, ?_, ?_⟩
  · intro p h
    unfold statsDrawn
    rw [show stats = stat1 :: [stat2, stat3] from rfl]
    refine cardLoop_stop statH 12 stat1 [stat2, stat3] _ ?_
    rw [e1]
    linarith
  · intro y
    unfold statsDrawn
    rw [show stats = stat1 :: [stat2, stat3] from rfl]
    constructor
    · intro h1
      by_contra hlt
      push_neg at hlt
      have h2 : y - statH stat1 < 60 := by rw [e1]; linarith
      rw [cardLoop_stop statH 12 stat1 [stat2, stat3] y h2] at h1
      simp at h1
    · intro h124
      have h2 : ¬ (y - statH stat1 < 60) := by rw [e1]; linarith
      simp only [cardLoop, if_neg h2]
      rw [List.length_cons]
      omega
  · intro p hp
    have hn : (0 : ℚ) ≤ ((problemLines p).length : ℚ) := Nat.cast_nonneg _
    unfold page2StatsStart problemCardH bodyStartY headerY headerLineY logoH
      LOGO_ASPECT H at hp
    have h378 : (378 : ℚ) * ((problemLines p).length : ℚ) = 12745 := by
      norm_num at hp
      linarith
    have hcast : ((378 * (problemLines p).length : ℕ) : ℚ) = ((12745 : ℕ) : ℚ) := by
      push_cast
      linarith
    have hfin : 378 * (problemLines p).length = 12745 := Nat.cast_injective hcast
    omega

set_option maxRecDepth 80000 in
/-- Witness for C4 as amended: a 34-segment problem statement leaves less
than 60 points and yields zero statistic cards; at exactly 124 points at
least one card is drawn; the scenario problem does not leave 61 points. -/
theorem c4_amended_witness :
    statsDrawn (page2StatsStart longProblem) = [] ∧
    1 ≤ (statsDrawn (124 : ℚ)).length ∧
    page2StatsStart "x" ≠ 61 :=
  ⟨c4_amended.1 longProblem (by with_unfolding_all decide),
   (c4_amended.2.1 124).mpr (by norm_num),
   c4_amended.2.2 "x"⟩

set_option maxRecDepth 80000 in
/-- Counterexample to C6: two texts of equal length (83 characters) whose
page-2 statistic-card heights are ordered the wrong way round — 42
one-character words wrap to two lines (height 76) while one 83-character
word wraps to a single line (height 64), so the computed card height is not
a non-decreasing function of text length. -/
theorem c6_counterexample :
    manyShortWords.length ≤ oneLongWord.length ∧
    ¬ statCardHeight manyShortWords ≤ statCardHeight oneLongWord := by
  constructor
  · with_unfolding_all decide
  · with_unfolding_all decide

/-- Claim C6 as amended: for a fixed font, size and wrap width, the computed
card height (fixed chrome plus line count times line height plus fixed
padding) is a non-decreasing function of the wrapped line count of the input
text, not of its raw character length. -/
theorem c6_amended (t1 t2 : String)
    (h : (simpleSplit t1 9 (CW - 30)).length ≤ (simpleSplit t2 9 (CW - 30)).length) :
    statCardHeight t1 ≤ statCardHeight t2 := by
  unfold statCardHeight
  have hq : ((simpleSplit t1 9 (CW - 30)).length : ℚ)
      ≤ ((simpleSplit t2 9 (CW - 30)).length : ℚ) := Nat.cast_le.mpr h
  linarith

set_option maxRecDepth 80000 in
/-- Witness for C6 as amended at concrete inputs. -/
theorem c6_amended_witness : statCardHeight "a" ≤ statCardHeight manyShortWords :=
  c6_amended "a" manyShortWords (by with_unfolding_all decide)

/-- Claim C7: within each of the six pages, the vertical cursor variable `y`
only ever decreases (or stays equal) between consecutive content placements
from the top of the page until the page is closed. -/
theorem c7_cursor_monotone (name email field website problem : String) :
    List.Chain' (fun a b => b ≤ a) (page1 name field).ys ∧
    List.Chain' (fun a b => b ≤ a) (page2 field problem).ys ∧
    List.Chain' (fun a b => b ≤ a) (page3 field).ys ∧
    List.Chain' (fun a b => b ≤ a) (page4 name field).ys ∧
    List.Chain' (fun a b => b ≤ a) page5.ys ∧
    List.Chain' (fun a b => b ≤ a) (page6 field).ys :=
  ⟨page1_ys_chain name field, page2_ys_chain field problem, page3_ys_chain field,
   page4_ys_chain name field, page5_ys_chain, page6_ys_chain field⟩

/-- Claim C8: on every execution path of `do_POST` that creates the
temporary output file — the success path and every path where a `try`-block
step raises — the `finally` clause removes the file before the handler
returns: creations and removals balance, and a trace that creates the temp
file also removes it. -/
theorem c8_cleanup (body : List (String × JValue)) (failAt : Option GenStep) :
    (doPostTrace body failAt).count Ev.createTmp
      = (doPostTrace body failAt).count Ev.removeTmp ∧
    (Ev.createTmp ∈ doPostTrace body failAt →
      Ev.removeTmp ∈ doPostTrace body failAt) := by
  unfold doPostTrace
  cases hrv : requestValid body
  · simp only [Bool.false_eq_true, if_false]
    constructor <;> decide
  · rcases failAt with _ | s
    · constructor <;> decide
    · cases s <;> (constructor <;> decide)

/-- Witness for C8: a valid request whose `generate_pdf` step raises still
has the temp file removed. -/
theorem c8_cleanup_witness :
    Ev.removeTmp ∈ doPostTrace (bodyWithName (.str "Acme")) (some GenStep.generate) :=
  (c8_cleanup (bodyWithName (.str "Acme")) (some GenStep.generate)).2 (by decide)

/-- Claim C9: website noninterference — `generate_pdf` never reads the
website field, so two runs that differ only in the website value produce
identical documents (same pages, same drawing calls, same text). -/
theorem c9_website_noninterference
    (name email field website website2 problem : String) :
    generatePdf name email field website problem
      = generatePdf name email field website2 problem := rfl

/-- Claim C10: the presence check uses Python truthiness, so a required
field bound to any JSON-falsy value (0, false, null, empty array, empty
object) is rejected with HTTP 400 exactly like a missing field, while a
whitespace-only string passes validation and the generator is invoked. -/
theorem c10_truthiness :
    doPost (bodyWithName (.num 0)) = .errorReply 400 errBody ∧
    doPost (bodyWithName (.bool false)) = .errorReply 400 errBody ∧
    doPost (bodyWithName .null) = .errorReply 400 errBody ∧
    doPost (bodyWithName (.arr [])) = .errorReply 400 errBody ∧
    doPost (bodyWithName (.obj [])) = .errorReply 400 errBody ∧
    doPost (bodyWithName (.str " "))
      = .pdfReply 200 (.str " ") (.str "a@x.com") (.str "Plumbing") (.str "")
          (.str "x") :=
  ⟨rfl, rfl, rfl, rfl, rfl, rfl⟩
